import Mathlib

/-
  Verification development for the get-abi-2000 ABI resolution service.

  The Go source is shallowly embedded:
  - byte strings become List Nat (each entry one byte, 0..255);
  - the hex string produced by common.Bytes2Hex becomes a list of nibbles;
  - common.Address becomes Nat (the 20-byte value, < 2 ^ 160);
  - fallible Go functions return GoRes, whose crash constructor models a
    Go runtime panic (slice index out of range);
  - the JSON-RPC world (codeAt, storageAt, eth_call outcomes) is an explicit
    environment record, and the concurrent probe scheduling of
    DetectProxyTarget is parameterised by the arrival order of probe results.
-/

namespace GetAbi2000

/-- Outcome of a Go computation: a runtime panic, an error return, or a value. -/
inductive GoRes (ε α : Type) where
  | crash
  | err (e : ε)
  | ok (a : α)
deriving DecidableEq, Repr

/-- Big-endian byte-string value, as computed by big.Int SetBytes. -/
def bytesToNat (b : List Nat) : Nat :=
  b.foldl (fun acc x => acc * 256 + x) 0

/-- common.BytesToAddress: keep the last 20 bytes, i.e. the value mod 2 ^ 160. -/
def bytesToAddress (b : List Nat) : Nat :=
  bytesToNat b % 2 ^ 160

/-- isZeroAddress from the source: SetBytes(addr) compared with 0. -/
def isZeroAddress (b : List Nat) : Bool :=
  bytesToNat b == 0

/-- common.Bytes2Hex viewed structurally: each byte becomes two nibbles. -/
def bytesToNibbles (b : List Nat) : List Nat :=
  (b.map fun x => [x / 16, x % 16]).flatten

/-- Value of a nibble string (big.Int SetBytes over common.FromHex). -/
def nibblesToNat (nibs : List Nat) : Nat :=
  nibs.foldl (fun acc x => acc * 16 + x) 0

/-- The 18 nibbles of EIP1167BytecodePrefix 363d3d373d3d3d363d (0x stripped). -/
def eip1167Head : List Nat :=
  [3, 6, 3, 13, 3, 13, 3, 7, 3, 13, 3, 13, 3, 13, 3, 6, 3, 13]

/-- The 8 nibbles of EIP1167BytecodeSuffix 57fd5bf3. -/
def eip1167Tail : List Nat :=
  [5, 7, 15, 13, 5, 11, 15, 3]

/-- ProxyInfo from the source; Target is the address value, Type its tag string. -/
structure ProxyInfo where
  target : Nat
  immutable : Bool
  type : String
deriving DecidableEq, Repr

/--
parse1167Bytecode from the source, step for step over the nibble string.
Go string slicing panics when the upper bound exceeds the length, which the
embedding records as GoRes.crash:
- bytecodeHex[18:20] (the PUSHn byte) panics when the hex string is exactly
  the 18-nibble template head;
- bytecodeHex[20 : 20 + 2 * L] (the embedded address) panics when the string
  is shorter than that bound.
The suffix length test uses short-circuit disjunction in Go, so the final
slice bytecodeHex[suffixStart:] is only taken when it is in range.
-/
def parse1167Bytecode (bytecode : List Nat) : GoRes Unit ProxyInfo :=
  let h := bytesToNibbles bytecode
  if h.take 18 ≠ eip1167Head then .err ()
  else if h.length < 20 then .crash
  else
    let pushN := nibblesToNat ((h.drop 18).take 2)
    let addressLength : Int := (pushN : Int) - 0x5f
    if addressLength < 1 ∨ addressLength > 20 then .err ()
    else
      let L := addressLength.toNat
      if h.length < 20 + 2 * L then .crash
      else
        let addrNibs := (h.drop 20).take (2 * L)
        let suffixStart := 20 + 2 * L + 22
        if h.length < suffixStart + 8 then .err ()
        else if (h.drop suffixStart).drop (h.length - suffixStart - 8) ≠ eip1167Tail then .err ()
        else .ok { target := nibblesToNat addrNibs % 2 ^ 160, immutable := true, type := "Eip1167" }

/-- Error returned by an RPC client call inside a probe. The first two
constructors are transport-level failures, the last two are the expected
probe-level failure modes (reverted eth_call, unknown selector). -/
inductive RpcErr where
  | connectionRefused
  | timeout
  | reverted
  | noFunction
deriving DecidableEq, Repr

/-- Transport-level failures in the sense of the spec (connection refused,
timeout), as opposed to probe-level failure modes. -/
def RpcErr.isTransport : RpcErr → Bool
  | .connectionRefused => true
  | .timeout => true
  | _ => false

/-- Transport errors from the HTTP transport surface as url.Error values,
which validateContract in the source singles out with a type assertion. -/
def RpcErr.isUrlError : RpcErr → Bool
  | .connectionRefused => true
  | .timeout => true
  | _ => false

/-- Error value produced by one detection probe. Each constructor stands for
one fmt.Errorf site in the source (message collapsed to a tag), plus rpc for
an error returned by the RPC client itself. -/
inductive ProbeErr where
  | rpc (e : RpcErr)
  | not1167
  | zeroSlot
  | beaconCallsFailed
  | invalidResultLength
  | noSuchProbe
deriving DecidableEq, Repr

/--
The on-chain world as DetectProxyTarget observes it for one proxy address:
the outcome of client.CodeAt on the proxy, of client.StorageAt on each of the
four fixed slots, of client.CallContract for the two beacon methods on the
resolved beacon address, and for the three interface selectors on the proxy
itself. cancelled models ctx.Done() having fired.
-/
structure Chain where
  codeAt : Except RpcErr (List Nat)
  slot1967Logic : Except RpcErr (List Nat)
  slot1967Beacon : Except RpcErr (List Nat)
  slotOZ : Except RpcErr (List Nat)
  slot1822 : Except RpcErr (List Nat)
  beaconImplCall : Except RpcErr (List Nat)
  beaconChildCall : Except RpcErr (List Nat)
  call897 : Except RpcErr (List Nat)
  callSafe : Except RpcErr (List Nat)
  callComptroller : Except RpcErr (List Nat)
  cancelled : Bool

/-- detectUsingBytecode: CodeAt then parse1167Bytecode. -/
def detectUsingBytecode (c : Chain) : GoRes ProbeErr ProxyInfo :=
  match c.codeAt with
  | .error e => .err (.rpc e)
  | .ok bytecode =>
    match parse1167Bytecode bytecode with
    | .crash => .crash
    | .err _ => .err .not1167
    | .ok pi => .ok pi

/-- Shared shape of the three storage-slot probes (EIP-1967 logic,
OpenZeppelin, EIP-1822): read the slot, dismiss on a zero word, otherwise
BytesToAddress of the 32-byte word. -/
def slotProbe (slotVal : Except RpcErr (List Nat)) (typeName : String) :
    GoRes ProbeErr ProxyInfo :=
  match slotVal with
  | .error e => .err (.rpc e)
  | .ok v =>
    if isZeroAddress v then .err .zeroSlot
    else .ok { target := bytesToAddress v, immutable := false, type := typeName }

/-- detectUsingEIP1967LogicSlot from the source. -/
def detectUsingEIP1967LogicSlot (c : Chain) : GoRes ProbeErr ProxyInfo :=
  slotProbe c.slot1967Logic "Eip1967Direct"

/-- detectUsingOpenZeppelinSlot from the source. -/
def detectUsingOpenZeppelinSlot (c : Chain) : GoRes ProbeErr ProxyInfo :=
  slotProbe c.slotOZ "OpenZeppelin"

/-- detectUsingEIP1822LogicSlot from the source. -/
def detectUsingEIP1822LogicSlot (c : Chain) : GoRes ProbeErr ProxyInfo :=
  slotProbe c.slot1822 "Eip1822"

/--
One iteration of the loop over EIP1167BeaconMethods in
detectUsingEIP1967BeaconSlot: the iteration produces a result exactly when
err == nil and the data is not the zero word; the Go expression data[12:]
panics when the returned data is shorter than 12 bytes.
-/
def beaconCallStep (res : Except RpcErr (List Nat)) :
    Option (GoRes ProbeErr ProxyInfo) :=
  match res with
  | .error _ => none
  | .ok data =>
    if isZeroAddress data then none
    else if data.length < 12 then some .crash
    else some (.ok { target := bytesToAddress (data.drop 12), immutable := false,
                     type := "Eip1967Beacon" })

/-- detectUsingEIP1967BeaconSlot from the source: read the beacon slot,
dismiss on zero, then try implementation() and childImplementation() on the
resolved beacon address. -/
def detectUsingEIP1967BeaconSlot (c : Chain) : GoRes ProbeErr ProxyInfo :=
  match c.slot1967Beacon with
  | .error e => .err (.rpc e)
  | .ok v =>
    if isZeroAddress v then .err .zeroSlot
    else
      match beaconCallStep c.beaconImplCall with
      | some r => r
      | none =>
        match beaconCallStep c.beaconChildCall with
        | some r => r
        | none => .err .beaconCallsFailed

/-- detectUsingInterfaceCalls from the source: an eth_call with a fixed
selector; a result of at least 32 bytes is accepted with no zero-address
check, the target being BytesToAddress(result[12:]). -/
def detectUsingInterfaceCalls (res : Except RpcErr (List Nat)) :
    GoRes ProbeErr ProxyInfo :=
  match res with
  | .error e => .err (.rpc e)
  | .ok result =>
    if result.length < 32 then .err .invalidResultLength
    else .ok { target := bytesToAddress (result.drop 12), immutable := false,
               type := "InterfaceCall" }

/-- The eight entries of detectionMethods, in source order, indexed by
position. Indices above 7 do not occur in the source schedule and are mapped
to an inert failing probe, an artifact of the Nat indexing only. -/
def probeOutcome (c : Chain) : Nat → GoRes ProbeErr ProxyInfo
  | 0 => detectUsingBytecode c
  | 1 => detectUsingEIP1967LogicSlot c
  | 2 => detectUsingEIP1967BeaconSlot c
  | 3 => detectUsingOpenZeppelinSlot c
  | 4 => detectUsingEIP1822LogicSlot c
  | 5 => detectUsingInterfaceCalls c.call897
  | 6 => detectUsingInterfaceCalls c.callSafe
  | 7 => detectUsingInterfaceCalls c.callComptroller
  | _ + 8 => .err .noSuchProbe

/-- Error DetectProxyTarget itself can return: ctx.Err() on cancellation, or
the final fmt.Errorf unable to detect proxy target. -/
inductive EngineErr where
  | cancelled
  | detectFailed
deriving DecidableEq, Repr

/-- First successful probe result in arrival order; failed probes are read
from the errors channel and ignored. -/
def firstOk : List (GoRes ProbeErr ProxyInfo) → Option ProxyInfo
  | [] => none
  | .ok pi :: _ => some pi
  | _ :: rest => firstOk rest

/-- A Go panic in any spawned probe goroutine kills the whole process. -/
def anyCrash (c : Chain) : Bool :=
  (List.range 8).any fun i =>
    match probeOutcome c i with
    | .crash => true
    | _ => false

/--
DetectProxyTarget from the source. All eight probes are spawned; the select
loop returns the first result received, ignores individual errors, and
returns ctx.Err() when the context is done. order is the arrival order of
probe completions, resolving the nondeterminism of the concurrent schedule;
cancellation is modelled as dominating, one resolution of the race between
the done channel and a late result. If no probe in the schedule succeeds the
function returns the generic detection-failure error.
-/
def DetectProxyTarget (c : Chain) (order : List Nat) :
    GoRes EngineErr ProxyInfo :=
  if anyCrash c then .crash
  else if c.cancelled then .err .cancelled
  else
    match firstOk (order.map (probeOutcome c)) with
    | some pi => .ok pi
    | none => .err .detectFailed

/-- True when some RPC outcome in the environment is a transport failure. -/
def exceptTransport : Except RpcErr (List Nat) → Bool
  | .error e => e.isTransport
  | .ok _ => false

/-- Whether any RPC interaction of the detection run failed at transport
level (connection refused, timeout inside a probe). -/
def chainHasTransport (c : Chain) : Bool :=
  exceptTransport c.codeAt || exceptTransport c.slot1967Logic ||
  exceptTransport c.slot1967Beacon || exceptTransport c.slotOZ ||
  exceptTransport c.slot1822 || exceptTransport c.beaconImplCall ||
  exceptTransport c.beaconChildCall || exceptTransport c.call897 ||
  exceptTransport c.callSafe || exceptTransport c.callComptroller

/--
strconv.Atoi: optional single sign, then at least one ASCII digit, nothing
else, with the value constrained to a 64-bit int (overflow is an error).
-/
def goAtoi (s : String) : Option Int :=
  let chars := s.toList
  let signed : Int × List Char :=
    match chars with
    | '+' :: t => (1, t)
    | '-' :: t => (-1, t)
    | t => (1, t)
  let ds := signed.2
  if ds.isEmpty then none
  else if ds.all Char.isDigit then
    let v : Nat := ds.foldl (fun acc ch => acc * 10 + (ch.toNat - 48)) 0
    let iv : Int := signed.1 * v
    if -(2 ^ 63) ≤ iv ∧ iv ≤ 2 ^ 63 - 1 then some iv else none
  else none

/-- StorageItem from storage.go (the later version with metadata). The
Implementation field holds a string or nil in Go; here Option String. -/
structure StorageItem where
  ABI : String
  Implementation : Option String
  IsProxy : Bool
  IsDecompiled : Bool
deriving DecidableEq, Repr

/-- The cache map of ABIStorage, as an association list; the most recent
write for a key comes first. -/
abbrev ABIStorage := List (String × StorageItem)

/-- ABIStorage.Set. -/
def ABIStorage.Set (s : ABIStorage) (key : String) (item : StorageItem) :
    ABIStorage :=
  (key, item) :: s

/-- ABIStorage.Get. -/
def ABIStorage.Get (s : ABIStorage) (key : String) : Option StorageItem :=
  (s.find? fun p => p.1 == key).map fun p => p.2

/-- The JSON body createResponse builds from a StorageItem. -/
structure Response where
  abi : String
  implementation : Option String
  isProxy : Bool
  isDecompiled : Bool
deriving DecidableEq, Repr

/-- createResponse from the source. -/
def createResponse (item : StorageItem) : Response :=
  { abi := item.ABI, implementation := item.Implementation,
    isProxy := item.IsProxy, isDecompiled := item.IsDecompiled }

/-- Lower-case hex character for a nibble value. -/
def hexChar (n : Nat) : Char :=
  if n < 10 then Char.ofNat (48 + n) else Char.ofNat (87 + n)

/-- Rendering of a 20-byte address as a 42-character 0x string, standing for
common.Address.Hex(). The source applies EIP-55 checksum casing, which needs
Keccak; the casing is abstracted to lower case here, which no claim observes
, and the rendering stays injective on address values. -/
def addressHex (a : Nat) : String :=
  "0x" ++ String.mk ((List.range 40).map fun i => hexChar (a / 16 ^ (39 - i) % 16))

/-- Error taxonomy of the pipeline: the concrete error types of errors.go
plus the untyped fmt.Errorf errors, message collapsed to the literal text. -/
inductive FetchErr where
  | invalidInput (msg : String)
  | contractNotFound (address : String)
  | generic (msg : String)
deriving DecidableEq, Repr

/-- validateContract from the source: CodeAt, with url.Error singled out as
InvalidInputError, other client errors wrapped generically, and empty
bytecode reported as ContractNotFoundError. none means the check passed. -/
def validateContract (codeRes : Except RpcErr (List Nat)) (address : String) :
    Option FetchErr :=
  match codeRes with
  | .error e =>
    if e.isUrlError then some (.invalidInput "Invalid RPC URL or network error")
    else some (.generic "failed to check contract code")
  | .ok code =>
    if code.length == 0 then some (.contractNotFound address) else none

/-- FetchABI passes an InvalidInputError from validateContract through and
wraps every other error, ContractNotFoundError included, in a fresh generic
error via fmt.Errorf. -/
def wrapValidateErr (e : FetchErr) : FetchErr :=
  match e with
  | .invalidInput m => .invalidInput m
  | _ => .generic "failed to validate contract"

/-- The three input checks at the top of FetchABI, in source order: Atoi on
chainId, length of address, nonempty rpcURL. -/
def inputError (chainId address rpcURL : String) : Option FetchErr :=
  if (goAtoi chainId).isNone then
    some (.invalidInput "Invalid chainId: must be a number")
  else if ¬ (address.length == 42) then
    some (.invalidInput "Invalid address: must be 42 characters long")
  else if rpcURL == "" then
    some (.invalidInput "Invalid rpcURL: cannot be empty")
  else none

/-- getTargetAddress from the source: the implementation is set exactly when
a ProxyInfo was detected and its target is not the zero address. -/
def getTargetAddress (address : String) (proxyInfo : Option ProxyInfo) :
    String × Option String :=
  match proxyInfo with
  | some pi =>
    if pi.target ≠ 0 then (addressHex pi.target, some (addressHex pi.target))
    else (address, none)
  | none => (address, none)

/-- The chain ids registered in etherscanAPIs in init(). -/
def etherscanRegistered (chainId : Int) : Bool :=
  chainId == 1 || chainId == 11155111 || chainId == 10 || chainId == 8453 ||
  chainId == 56 || chainId == 137

/-- ABIFetcher.getABI source selection: the explorer outcome (some when the
chain is registered, carrying the GetABIFromEtherscan result), then on any
explorer failure or an unregistered chain the Heimdall decompiler outcome.
The second component of the result is isDecompiled. -/
def ABIFetcher.getABI (api : Option (Except Unit String))
    (heimdall : Except Unit String) : Except Unit (String × Bool) :=
  match api with
  | some (.ok abi) => .ok (abi, false)
  | _ =>
    match heimdall with
    | .ok abi => .ok (abi, true)
    | .error e => .error e

/-- External interactions one FetchABI run can perform. -/
inductive CallTag where
  | dial
  | codeAt
  | detect
  | explorer
  | heimdall
deriving DecidableEq, Repr

/-- The world one FetchABI request runs against: whether ethclient.Dial
succeeds, the chain as seen by the probes, the arrival order of probe
results, and the outcomes of the explorer and Heimdall HTTP calls. -/
structure FetchEnv where
  dialOk : Bool
  chain : Chain
  order : List Nat
  explorerRes : Except Unit String
  heimdallRes : Except Unit String

/--
ABIFetcher.FetchABI from the source, over an explicit environment and cache
state. Returns the result, the cache after the run, and the list of external
interactions performed. Steps in source order: the three input checks, the
cache lookup under chainId-address, Dial, validateContract (InvalidInput
passed through, everything else wrapped), DetectProxyTarget with any engine
error degraded to no-proxy, getTargetAddress, source selection via
ABIFetcher.getABI, then Set and createResponse.
-/
def FetchABI (env : FetchEnv) (st : ABIStorage)
    (chainId address rpcURL : String) :
    GoRes FetchErr Response × ABIStorage × List CallTag :=
  match inputError chainId address rpcURL with
  | some e => (.err e, st, [])
  | none =>
    match ABIStorage.Get st (chainId ++ "-" ++ address) with
    | some item => (.ok (createResponse item), st, [])
    | none =>
      if ¬ env.dialOk then
        (.err (.invalidInput "Failed to connect to Ethereum node"), st, [.dial])
      else
        match validateContract env.chain.codeAt address with
        | some e => (.err (wrapValidateErr e), st, [.dial, .codeAt])
        | none =>
          match DetectProxyTarget env.chain env.order with
          | .crash => (.crash, st, [.dial, .codeAt, .detect])
          | dres =>
            let proxyInfo : Option ProxyInfo :=
              match dres with
              | .ok pi => some pi
              | _ => none
            let ta := getTargetAddress address proxyInfo
            let chainIdInt : Int := (goAtoi chainId).getD 0
            let api : Option (Except Unit String) :=
              if etherscanRegistered chainIdInt then some env.explorerRes
              else none
            let calls : List CallTag :=
              [.dial, .codeAt, .detect] ++
              (if etherscanRegistered chainIdInt then [.explorer] else []) ++
              (match api with
               | some (.ok _) => []
               | _ => [.heimdall])
            match ABIFetcher.getABI api env.heimdallRes with
            | .error _ => (.err (.generic "failed to fetch ABI"), st, calls)
            | .ok (abi, isDecompiled) =>
              let item : StorageItem :=
                { ABI := abi, Implementation := ta.2,
                  IsProxy := proxyInfo.isSome, IsDecompiled := isDecompiled }
              (.ok (createResponse item), st.Set (chainId ++ "-" ++ address) item,
                calls)

/-- The status code the getABI handler in main.go maps each error type to:
InvalidInputError 400, ContractNotFoundError 404, default 500. -/
def statusFor : FetchErr → Nat
  | .invalidInput _ => 400
  | .contractNotFound _ => 404
  | .generic _ => 500

/-- Status of the whole handler: 200 on success, statusFor on error, none
when the request crashed the process. -/
def getABIStatus (r : GoRes FetchErr Response) : Option Nat :=
  match r with
  | .ok _ => some 200
  | .err e => some (statusFor e)
  | .crash => none

/-- Hex digit in either case. -/
def isHexDigitChar (c : Char) : Bool :=
  c.isDigit || ('a' ≤ c && c ≤ 'f') || ('A' ≤ c && c ≤ 'F')

/-- Modelled from the spec: address is a 42-character hex-address. -/
def isHexAddress42 (a : String) : Bool :=
  a.length == 42 && a.toList.take 2 == ['0', 'x'] &&
  (a.toList.drop 2).all isHexDigitChar

/-- Modelled from the spec, for comparison with inputError: reject when
chainId does not parse as a positive integer, when the address is not a
42-character hex-address, or when rpcURL is empty. -/
def specRejects (chainId address rpcURL : String) : Bool :=
  !(match goAtoi chainId with
    | some k => decide (0 < k)
    | none => false) ||
  !(isHexAddress42 address) || (rpcURL == "")

/-- Whether a GoRes is an error return. -/
def GoRes.isErr {ε α : Type} : GoRes ε α → Bool
  | .err _ => true
  | _ => false

/-- The cache-record invariant claimed by the spec, in its provable
direction: a non-null implementation implies isProxy. -/
def ItemInv (item : StorageItem) : Prop :=
  item.Implementation.isSome = true → item.IsProxy = true

/-- A 32-byte zero storage word (a slot that was never written). -/
def zeros32 : List Nat := List.replicate 32 0

/-- One arrival order listing every probe, in source index order. -/
def full8 : List Nat := [0, 1, 2, 3, 4, 5, 6, 7]

/-- The DAI token address, a well-formed 42-character address literal. -/
def daiAddr : String := "0x6B175474E89094C44Da98b954EedeAC495271d0F"

/-- An EIP-1167 minimal proxy with a one-byte embedded target 0xaa: template
head, PUSH1, the target byte, 11 filler bytes, the 4-byte template tail. -/
def code1167 : List Nat :=
  [0x36, 0x3d, 0x3d, 0x37, 0x3d, 0x3d, 0x3d, 0x36, 0x3d, 0x60, 0xaa] ++
    List.replicate 11 0 ++ [0x57, 0xfd, 0x5b, 0xf3]

/-- A chain holding the minimal proxy above; every other probe input is a
benign miss (zero slots, reverted calls). -/
def chain1167W : Chain :=
  { codeAt := .ok code1167
    slot1967Logic := .ok zeros32
    slot1967Beacon := .ok zeros32
    slotOZ := .ok zeros32
    slot1822 := .ok zeros32
    beaconImplCall := .error .reverted
    beaconChildCall := .error .reverted
    call897 := .error .reverted
    callSafe := .error .reverted
    callComptroller := .error .reverted
    cancelled := false }

/-- A chain where implementation() answers 32 zero bytes and everything else
misses: the EIP-897 interface probe accepts the zero address as a target. -/
def chainZeroIface : Chain :=
  { codeAt := .ok [0]
    slot1967Logic := .ok zeros32
    slot1967Beacon := .ok zeros32
    slotOZ := .ok zeros32
    slot1822 := .ok zeros32
    beaconImplCall := .error .reverted
    beaconChildCall := .error .reverted
    call897 := .ok zeros32
    callSafe := .error .reverted
    callComptroller := .error .reverted
    cancelled := false }

/-- An ordinary non-proxy contract: nonempty bytecode that is not the 1167
template, zero slots, every interface call reverts. No transport failure. -/
def chainNoProxy : Chain :=
  { codeAt := .ok [0x60, 0x80]
    slot1967Logic := .ok zeros32
    slot1967Beacon := .ok zeros32
    slotOZ := .ok zeros32
    slot1822 := .ok zeros32
    beaconImplCall := .error .reverted
    beaconChildCall := .error .reverted
    call897 := .error .reverted
    callSafe := .error .reverted
    callComptroller := .error .reverted
    cancelled := false }

/-- Like chainNoProxy, except the bytecode read fails at transport level
(connection refused) inside the probe. -/
def chainConnRefused : Chain :=
  { codeAt := .error .connectionRefused
    slot1967Logic := .ok zeros32
    slot1967Beacon := .ok zeros32
    slotOZ := .ok zeros32
    slot1822 := .ok zeros32
    beaconImplCall := .error .reverted
    beaconChildCall := .error .reverted
    call897 := .error .reverted
    callSafe := .error .reverted
    callComptroller := .error .reverted
    cancelled := false }

/-- An address with no bytecode on-chain (externally owned account). -/
def chainEmptyCode : Chain :=
  { codeAt := .ok []
    slot1967Logic := .ok zeros32
    slot1967Beacon := .ok zeros32
    slotOZ := .ok zeros32
    slot1822 := .ok zeros32
    beaconImplCall := .error .reverted
    beaconChildCall := .error .reverted
    call897 := .error .reverted
    callSafe := .error .reverted
    callComptroller := .error .reverted
    cancelled := false }

/-- A beacon whose slot holds address 0x01 and whose implementation() call
returns the single nonzero byte 0x01: shorter than 12 bytes, not zero. -/
def chainBeaconShort : Chain :=
  { codeAt := .ok [0x60, 0x80]
    slot1967Logic := .ok zeros32
    slot1967Beacon := .ok (List.replicate 31 0 ++ [1])
    slotOZ := .ok zeros32
    slot1822 := .ok zeros32
    beaconImplCall := .ok [1]
    beaconChildCall := .error .reverted
    call897 := .error .reverted
    callSafe := .error .reverted
    callComptroller := .error .reverted
    cancelled := false }

/-- A run against a registered chain whose explorer answers. -/
def envOkExplorer : FetchEnv :=
  { dialOk := true, chain := chainNoProxy, order := full8,
    explorerRes := .ok "abiX", heimdallRes := .error () }

/-- A run where detection classifies a zero target via the interface call. -/
def envZeroIface : FetchEnv :=
  { dialOk := true, chain := chainZeroIface, order := full8,
    explorerRes := .ok "abiX", heimdallRes := .error () }

/-- Explorer errors (rate limited), Heimdall succeeds. -/
def envExpFailHeimOk : FetchEnv :=
  { dialOk := true, chain := chainNoProxy, order := full8,
    explorerRes := .error (), heimdallRes := .ok "heimAbi" }

/-- Explorer errors and Heimdall errors too. -/
def envBothFail : FetchEnv :=
  { dialOk := true, chain := chainNoProxy, order := full8,
    explorerRes := .error (), heimdallRes := .error () }

/-- A valid request whose address has no bytecode on-chain. -/
def envEmptyCode : FetchEnv :=
  { dialOk := true, chain := chainEmptyCode, order := full8,
    explorerRes := .ok "abiX", heimdallRes := .ok "heimAbi" }

/-- The cache record produced by the envOkExplorer run. -/
def itemW : StorageItem :=
  { ABI := "abiX", Implementation := none, IsProxy := false, IsDecompiled := false }

/-- The cache after one successful resolution of (1, DAI). -/
def stW : ABIStorage :=
  [("1-0x6B175474E89094C44Da98b954EedeAC495271d0F", itemW)]

/-- The nine bytes of the EIP-1167 template head, with nothing after them. -/
def eip1167HeadBytes : List Nat :=
  [0x36, 0x3d, 0x3d, 0x37, 0x3d, 0x3d, 0x3d, 0x36, 0x3d]

/-- A 42-character string that is not a hexadecimal address. -/
def addr42NonHex : String := "0xZZZZZZZZZZZZZZZZZZZZZZZZZZZZZZZZZZZZZZZZ"

end GetAbi2000

namespace GetAbi2000

/-! Helper lemmas shared by several claims. -/

theorem parse1167_ok_shape (b : List Nat) (pi : ProxyInfo)
    (h : parse1167Bytecode b = .ok pi) :
    pi.immutable = true ∧ pi.type = "Eip1167" := by
  simp only [parse1167Bytecode] at h
  split at h
  · simp_all
  · split at h
    · simp_all
    · split at h
      · simp_all
      · split at h
        · simp_all
        · split at h
          · simp_all
          · split at h
            · simp_all
            · simp only [GoRes.ok.injEq] at h
              subst h
              exact ⟨rfl, rfl⟩

theorem slotProbe_ok_shape (v : Except RpcErr (List Nat)) (s : String)
    (pi : ProxyInfo) (h : slotProbe v s = .ok pi) : pi.immutable = false := by
  unfold slotProbe at h
  split at h
  · simp_all
  · split at h
    · simp_all
    · simp only [GoRes.ok.injEq] at h
      subst h
      rfl

theorem beaconCallStep_ok_shape (r : Except RpcErr (List Nat)) (pi : ProxyInfo)
    (h : beaconCallStep r = some (.ok pi)) : pi.immutable = false := by
  unfold beaconCallStep at h
  split at h
  · simp_all
  · split at h
    · simp_all
    · split at h
      · simp_all
      · simp only [Option.some.injEq, GoRes.ok.injEq] at h
        subst h
        rfl

theorem beaconProbe_ok_shape (c : Chain) (pi : ProxyInfo)
    (h : detectUsingEIP1967BeaconSlot c = .ok pi) : pi.immutable = false := by
  unfold detectUsingEIP1967BeaconSlot at h
  split at h
  · simp_all
  · split at h
    · simp_all
    · split at h
      · rename_i r hr
        exact beaconCallStep_ok_shape _ _ (h ▸ hr)
      · split at h
        · rename_i r hr
          exact beaconCallStep_ok_shape _ _ (h ▸ hr)
        · simp_all

theorem ifaceProbe_ok_shape (r : Except RpcErr (List Nat)) (pi : ProxyInfo)
    (h : detectUsingInterfaceCalls r = .ok pi) : pi.immutable = false := by
  unfold detectUsingInterfaceCalls at h
  split at h
  · simp_all
  · split at h
    · simp_all
    · simp only [GoRes.ok.injEq] at h
      subst h
      rfl

theorem probe_ok_shape (c : Chain) (i : Nat) (pi : ProxyInfo)
    (h : probeOutcome c i = .ok pi) (him : pi.immutable = true) :
    pi.type = "Eip1167" := by
  rcases i with _|_|_|_|_|_|_|_|i
  · change detectUsingBytecode c = GoRes.ok pi at h
    unfold detectUsingBytecode at h
    split at h
    · simp_all
    · split at h
      · simp_all
      · simp_all
      · rename_i hp
        have := parse1167_ok_shape _ _ hp
        simp_all
  · have := slotProbe_ok_shape c.slot1967Logic "Eip1967Direct" pi h
    simp_all
  · have := beaconProbe_ok_shape c pi h
    simp_all
  · have := slotProbe_ok_shape c.slotOZ "OpenZeppelin" pi h
    simp_all
  · have := slotProbe_ok_shape c.slot1822 "Eip1822" pi h
    simp_all
  · have := ifaceProbe_ok_shape c.call897 pi h
    simp_all
  · have := ifaceProbe_ok_shape c.callSafe pi h
    simp_all
  · have := ifaceProbe_ok_shape c.callComptroller pi h
    simp_all
  · have hx : GoRes.err ProbeErr.noSuchProbe = GoRes.ok pi := h
    simp at hx

theorem firstOk_mem (l : List (GoRes ProbeErr ProxyInfo)) (pi : ProxyInfo)
    (h : firstOk l = some pi) : GoRes.ok pi ∈ l := by
  induction l with
  | nil => simp [firstOk] at h
  | cons a rest ih =>
    cases a with
    | ok pi2 =>
      simp only [firstOk, Option.some.injEq] at h
      subst h
      exact List.mem_cons_self _ _
    | crash => exact List.mem_cons_of_mem _ (ih (by simpa [firstOk] using h))
    | err e => exact List.mem_cons_of_mem _ (ih (by simpa [firstOk] using h))

theorem firstOk_cons_err (a : GoRes ProbeErr ProxyInfo)
    (l : List (GoRes ProbeErr ProxyInfo)) (ha : a.isErr = true) :
    firstOk (a :: l) = firstOk l := by
  cases a <;> simp_all [GoRes.isErr, firstOk]

theorem storage_get_set_self (st : ABIStorage) (k : String) (item : StorageItem) :
    ABIStorage.Get (ABIStorage.Set st k item) k = some item := by
  simp [ABIStorage.Get, ABIStorage.Set, List.find?]

theorem storage_get_mem (st : ABIStorage) (k : String) (item : StorageItem)
    (h : ABIStorage.Get st k = some item) : ∃ p ∈ st, p.2 = item := by
  unfold ABIStorage.Get at h
  cases hf : st.find? fun p => p.1 == k with
  | none => simp [hf] at h
  | some p =>
    refine ⟨p, List.mem_of_find?_eq_some hf, ?_⟩
    simp [hf] at h
    exact h

theorem getTargetAddress_isSome (address : String) (po : Option ProxyInfo)
    (h : ((getTargetAddress address po).2).isSome = true) : po.isSome = true := by
  cases po with
  | none => simp [getTargetAddress] at h
  | some pi => rfl


/-! Claim C1. -/

/-- Claim C1, amended: for every ProxyInfo the engine returns, immutable is
true only when the kind is Eip1167. The other half of the claim as stated
(the target is never the zero address) is refuted by the counterexample
below: the interface-call probes accept any 32-byte return with no
zero-address check. -/
theorem detect_immutable_only_eip1167 (c : Chain) (order : List Nat)
    (pi : ProxyInfo) (h : DetectProxyTarget c order = .ok pi)
    (him : pi.immutable = true) : pi.type = "Eip1167" := by
  unfold DetectProxyTarget at h
  split at h
  · simp_all
  · split at h
    · simp_all
    · split at h
      · rename_i pi2 hfo
        simp only [GoRes.ok.injEq] at h
        subst h
        have hmem := firstOk_mem _ _ hfo
        obtain ⟨i, hi, hpo⟩ := List.mem_map.mp hmem
        exact probe_ok_shape c i pi2 hpo him
      · simp_all

/-- Witness for C1: a concrete EIP-1167 minimal proxy run through the engine,
with the hypotheses of the theorem discharged by evaluation. -/
theorem detect_immutable_only_eip1167_w :
    DetectProxyTarget chain1167W [0] =
      .ok { target := 0xaa, immutable := true, type := "Eip1167" } ∧
    ({ target := 0xaa, immutable := true, type := "Eip1167" } : ProxyInfo).type =
      "Eip1167" :=
  ⟨by decide,
    detect_immutable_only_eip1167 chain1167W [0]
      { target := 0xaa, immutable := true, type := "Eip1167" } (by decide) (by decide)⟩

/-- Counterexample to C1 as stated: a chain whose implementation() call
answers 32 zero bytes makes DetectProxyTarget return a ProxyInfo whose target
is the zero address. -/
theorem detect_zero_target_cex :
    DetectProxyTarget chainZeroIface full8 =
      .ok { target := 0, immutable := false, type := "InterfaceCall" } ∧
    ({ target := 0, immutable := false, type := "InterfaceCall" } : ProxyInfo).target
      = 0 := by
  exact ⟨by decide, rfl⟩

/-! Claim C4. -/

/-- Claim C4, amended: an individual failed probe is skipped without
affecting the engine (whatever its failure kind, transport included), and
the only error values DetectProxyTarget ever returns are the cancellation
error and the single generic detection-failure error; probe failures are
never propagated as such. -/
theorem detect_failures_swallowed :
    (∀ (c : Chain) (order : List Nat) (e : EngineErr),
        DetectProxyTarget c order = .err e →
          e = .cancelled ∨ e = .detectFailed) ∧
    (∀ (c : Chain) (i : Nat) (order : List Nat),
        (probeOutcome c i).isErr = true →
          DetectProxyTarget c (i :: order) = DetectProxyTarget c order) := by
  constructor
  · intro c order e h
    unfold DetectProxyTarget at h
    split at h
    · simp_all
    · split at h
      · simp only [GoRes.err.injEq] at h
        exact Or.inl h.symm
      · split at h
        · simp_all
        · simp only [GoRes.err.injEq] at h
          exact Or.inr h.symm
  · intro c i order hE
    unfold DetectProxyTarget
    split
    · rfl
    · split
      · rfl
      · rw [List.map_cons, firstOk_cons_err _ _ hE]

/-- Witness for C4: skipping a concretely failing probe (the EIP-1967 logic
slot probe on a chain whose slots are zero) leaves the engine result
unchanged. -/
theorem detect_failures_swallowed_w :
    DetectProxyTarget chainNoProxy (1 :: full8) =
      DetectProxyTarget chainNoProxy full8 :=
  detect_failures_swallowed.2 chainNoProxy 1 full8 (by decide)

/-- Counterexample to C4 as stated: with a transport failure (connection
refused) inside the bytecode probe and no successful probe, the engine does
not propagate the transport failure; it returns the same generic
detection-failure error as a fully benign non-proxy run, in which no
transport failure occurred at all. -/
theorem detect_transport_not_propagated_cex :
    DetectProxyTarget chainConnRefused full8 = .err .detectFailed ∧
    chainHasTransport chainConnRefused = true ∧
    DetectProxyTarget chainNoProxy full8 = .err .detectFailed ∧
    chainHasTransport chainNoProxy = false := by
  decide

/-! Claim C3. -/

/-- Claim C3: the code_bug evaluation. A bytecode that is exactly the
nine-byte EIP-1167 template head makes parse1167Bytecode panic (the Go
slice bytecodeHex[18:20] is out of range), as does the head followed by a
plausible PUSH1 opcode with the address bytes missing (bytecodeHex[20:22]);
the claim says every mismatch is reported as not-this-kind without a crash. -/
theorem parse1167_crash_on_truncated_template :
    parse1167Bytecode eip1167HeadBytes = .crash ∧
    parse1167Bytecode (eip1167HeadBytes ++ [0x60]) = .crash ∧
    detectUsingBytecode
      { chainEmptyCode with codeAt := .ok eip1167HeadBytes } = .crash := by
  decide

/-! Claim C10. -/

/-- Claim C10: the code_bug evaluation. A beacon whose implementation() call
returns the single nonzero byte 0x01 passes the isZeroAddress test, and the
probe then panics on data[12:], crashing the engine with it; the claim says
the extraction is total. -/
theorem beacon_short_return_crash :
    isZeroAddress [1] = false ∧
    detectUsingEIP1967BeaconSlot chainBeaconShort = .crash ∧
    DetectProxyTarget chainBeaconShort full8 = .crash := by
  decide

/-! Claim C5. -/

/-- Claim C5, amended: FetchABI rejects with InvalidInput exactly those
requests whose chainId fails strconv.Atoi (sign and 64-bit range, positivity
not required), whose address is not exactly 42 characters (hex content not
checked), or whose rpcURL is empty. The claim as stated (positive integer,
hex address) is refuted by the counterexample below. -/
theorem inputError_iff (chainId address rpcURL : String) :
    (inputError chainId address rpcURL).isSome = true ↔
      ((goAtoi chainId).isNone = true ∨ address.length ≠ 42 ∨ rpcURL = "") := by
  unfold inputError
  by_cases h1 : (goAtoi chainId).isNone
  · simp [h1]
  · simp only [h1, if_false, Bool.false_eq_true]
    by_cases h2 : address.length = 42
    · simp only [h2, beq_self_eq_true, not_true, if_false]
      by_cases h3 : rpcURL = ""
      · simp [h3]
      · simp [h3, h1]
    · simp only [show (address.length == 42) = false by simpa using h2]
      simp [h1, h2]

/-- Counterexample to C5 as stated: chainId 0 is not a positive integer and
a 42-character string of non-hex characters is not a hex address, yet both
requests pass validation; the spec-modelled predicate rejects both. -/
theorem validation_misses_positive_and_hex_cex :
    specRejects "0" daiAddr "r" = true ∧
    inputError "0" daiAddr "r" = none ∧
    isHexAddress42 addr42NonHex = false ∧
    addr42NonHex.length = 42 ∧
    inputError "1" addr42NonHex "r" = none := by
  decide

/-! Claim C6. -/

/-- Claim C6, amended: the HTTP edge never answers 503. When the explorer is
reachable but errors, the request falls through to the decompiler: the edge
answers 200 when the decompiler succeeds and 500 when it also fails. -/
theorem edge_never_503 :
    (∀ e : FetchErr, statusFor e ≠ 503) ∧
    getABIStatus (FetchABI envExpFailHeimOk [] "1" daiAddr "r").1 = some 200 ∧
    getABIStatus (FetchABI envBothFail [] "1" daiAddr "r").1 = some 500 := by
  refine ⟨?_, by decide, by decide⟩
  intro e
  cases e <;> simp [statusFor]

/-- Counterexample to C6 as stated: a request whose explorer call errors is
answered 200 (decompiler fallback succeeded), not 503; and when the
decompiler also fails it is answered 500, not 503. -/
theorem explorer_error_not_503_cex :
    (FetchABI envExpFailHeimOk [] "1" daiAddr "r").1 =
      .ok { abi := "heimAbi", implementation := none, isProxy := false,
            isDecompiled := true } ∧
    getABIStatus (FetchABI envExpFailHeimOk [] "1" daiAddr "r").1 ≠ some 503 ∧
    getABIStatus (FetchABI envBothFail [] "1" daiAddr "r").1 ≠ some 503 := by
  decide

/-! Claim C7. -/

/-- Claim C7: ABI source selection. With a registered explorer that succeeds
the result is (abi, isDecompiled=false); on explorer failure or an
unregistered chain the decompiler is tried and success gives
(abi, isDecompiled=true); when the decompiler also fails, resolution fails.
Chain 1 is registered in init(), chain 2 is not. -/
theorem getABI_source_selection :
    (∀ (s : String) (hm : Except Unit String),
        ABIFetcher.getABI (some (.ok s)) hm = .ok (s, false)) ∧
    (∀ s : String, ABIFetcher.getABI (some (.error ())) (.ok s) = .ok (s, true)) ∧
    (∀ s : String, ABIFetcher.getABI none (.ok s) = .ok (s, true)) ∧
    ABIFetcher.getABI (some (.error ())) (.error ()) = .error () ∧
    ABIFetcher.getABI none (.error ()) = .error () ∧
    etherscanRegistered 1 = true ∧
    etherscanRegistered 2 = false :=
  ⟨fun _ _ => rfl, fun _ => rfl, fun _ => rfl, rfl, rfl, rfl, rfl⟩

/-! Claim C8. -/

/-- Claim C8: the code_bug evaluation. An address with empty bytecode makes
validateContract produce ContractNotFoundError (which the edge would map to
404), but FetchABI wraps it in a generic error, so the edge answers 500; the
edge's 404 branch is unreachable from the pipeline. -/
theorem empty_bytecode_wrapped_to_500 :
    validateContract (Except.ok []) daiAddr = some (.contractNotFound daiAddr) ∧
    statusFor (.contractNotFound daiAddr) = 404 ∧
    (FetchABI envEmptyCode [] "1" daiAddr "r").1 =
      .err (.generic "failed to validate contract") ∧
    getABIStatus (FetchABI envEmptyCode [] "1" daiAddr "r").1 = some 500 := by
  decide

/-! Claim C2. -/

/-- Claim C2, amended: for every record the pipeline stores or returns, a
non-null implementation implies isProxy, and the cache preserves that
invariant; the converse direction of the claimed equivalence fails when the
detected proxy target is the zero address (counterexample below), because
IsProxy is set from proxyInfo being non-nil while implementation is only set
when additionally the target is non-zero. -/
theorem fetchABI_item_invariant (env : FetchEnv) (st : ABIStorage)
    (chainId address rpcURL : String) (resp : Response) (st2 : ABIStorage)
    (calls : List CallTag)
    (hst : ∀ p ∈ st, ItemInv p.2)
    (h : FetchABI env st chainId address rpcURL = (.ok resp, st2, calls)) :
    (resp.implementation.isSome = true → resp.isProxy = true) ∧
    (∀ p ∈ st2, ItemInv p.2) := by
  simp only [FetchABI] at h
  split at h
  · simp at h
  · split at h
    · rename_i item hget
      simp only [Prod.mk.injEq, GoRes.ok.injEq] at h
      obtain ⟨h1, h2, _⟩ := h
      subst h2
      obtain ⟨p, hp, hpi⟩ := storage_get_mem st _ item hget
      have hinv := hst p hp
      rw [hpi] at hinv
      refine ⟨?_, hst⟩
      intro hs
      rw [← h1] at hs ⊢
      exact hinv hs
    · split at h
      · simp at h
      · split at h
        · simp at h
        · split at h
          · simp at h
          · split at h
            · simp at h
            · rename_i habi
              simp only [Prod.mk.injEq, GoRes.ok.injEq] at h
              obtain ⟨h1, h2, _⟩ := h
              subst h2
              constructor
              · intro hs
                rw [← h1] at hs ⊢
                exact getTargetAddress_isSome _ _ hs
              · intro p hp
                rcases List.mem_cons.mp hp with hp1 | hp2
                · subst hp1
                  intro hs
                  exact getTargetAddress_isSome _ _ hs
                · exact hst p hp2

/-- Witness for C2: the invariant instantiated on a concrete successful run
against a registered chain with a verified non-proxy contract, starting from
the empty cache. -/
theorem fetchABI_item_invariant_w :
    (((createResponse itemW).implementation.isSome = true →
        (createResponse itemW).isProxy = true) ∧
      (∀ p ∈ stW, ItemInv p.2)) :=
  fetchABI_item_invariant envOkExplorer [] "1" daiAddr "r"
    (createResponse itemW) stW [.dial, .codeAt, .detect, .explorer]
    (by simp) (by decide)

/-- Counterexample to C2 as stated: when detection returns a zero-target
ProxyInfo (interface call answering 32 zero bytes), the stored and returned
record has isProxy true and implementation null. -/
theorem fetchABI_zero_target_cex :
    (FetchABI envZeroIface [] "1" daiAddr "r").1 =
      .ok { abi := "abiX", implementation := none, isProxy := true,
            isDecompiled := false } ∧
    ({ abi := "abiX", implementation := none, isProxy := true,
       isDecompiled := false } : Response).isProxy = true ∧
    ({ abi := "abiX", implementation := none, isProxy := true,
       isDecompiled := false } : Response).implementation = none := by
  decide

/-! Claim C9. -/

/-- Claim C9: after one successful FetchABI run, a request with the identical
chainId, address and rpcURL strings is answered from the cache: the response
is identical to the first, the cache is unchanged, and no external call at
all (RPC dial, bytecode read, detection, explorer, decompiler) is performed,
whatever the state of the outside world has become. -/
theorem cache_idempotent (env env2 : FetchEnv) (st : ABIStorage)
    (chainId address rpcURL : String) (resp : Response) (st2 : ABIStorage)
    (calls : List CallTag)
    (h : FetchABI env st chainId address rpcURL = (.ok resp, st2, calls)) :
    FetchABI env2 st2 chainId address rpcURL = (.ok resp, st2, []) := by
  have hin : inputError chainId address rpcURL = none := by
    by_contra hne
    cases hinx : inputError chainId address rpcURL with
    | none => exact hne hinx
    | some e =>
      simp only [FetchABI, hinx] at h
      simp at h
  simp only [FetchABI, hin] at h ⊢
  split at h
  · rename_i item hget
    simp only [Prod.mk.injEq, GoRes.ok.injEq] at h
    obtain ⟨h1, h2, _⟩ := h
    subst h2
    rw [hget]
    simp only [h1]
  · split at h
    · simp at h
    · split at h
      · simp at h
      · split at h
        · simp at h
        · split at h
          · simp at h
          · simp only [Prod.mk.injEq, GoRes.ok.injEq] at h
            obtain ⟨h1, h2, _⟩ := h
            subst h2
            rw [storage_get_set_self]
            simp only [h1]

/-- Witness for C9: a first resolution of (1, DAI) from the empty cache,
followed by an identical request served from the cache even though every
upstream in the second environment fails. -/
theorem cache_idempotent_w :
    FetchABI envBothFail stW "1" daiAddr "r" =
      (.ok (createResponse itemW), stW, []) :=
  cache_idempotent envOkExplorer envBothFail [] "1" daiAddr "r"
    (createResponse itemW) stW [.dial, .codeAt, .detect, .explorer] (by decide)

end GetAbi2000
